import Mathlib

/-!
Verification development for the doc-appint appointment-booking application.

The application's data lives in a relational store (tables: doctors,
recurring_schedules, time_slots, appointments).  We embed the store tables as
Lean lists of structure values, and each screen-level operation of the source
as a pure function from the relevant store fragment (plus the form input) to
the updated fragment together with the user-visible outcome (message, success
flag).  Calendar dates and clock times that the source only ever compares
chronologically are embedded as natural numbers (day index, minutes since
midnight); time-of-day strings that the source compares lexicographically as
JavaScript strings are embedded as Lean strings compared code-point-wise.
-/

namespace DocAppint

/-- JavaScript string comparison `a < b` on code points, as performed by the
`>=` operator in `onScheduleSubmit` (`src/app/accounts/page.tsx`, schedules
variant).  The compared values are zero-padded HH:MM strings, all ASCII. -/
def jsStrLt : List Char → List Char → Bool
  | [], [] => false
  | [], _ :: _ => true
  | _ :: _, [] => false
  | a :: as, b :: bs =>
    if a.toNat < b.toNat then true
    else if b.toNat < a.toNat then false
    else jsStrLt as bs

/-- Appointment status enumeration from `src/lib/supabase.ts`
(`'confirmed' | 'cancelled' | 'completed' | 'no_show'`). -/
inductive Status where
  | confirmed
  | cancelled
  | completed
  | no_show
deriving DecidableEq, Repr

/-- Doctor tier enumeration from `src/lib/supabase.ts` (`'free' | 'basic' | 'pro'`). -/
inductive Tier where
  | free
  | basic
  | pro
deriving DecidableEq, Repr

/-- The `doctors` table row, fields from `src/lib/supabase.ts` (`Doctor`).
Optional profile fields that no modelled operation reads are omitted. -/
structure Doctor where
  id : String
  email : String
  username : String
  tier : Tier
  profile_completed : Bool
deriving DecidableEq, Repr

/-- The `time_slots` table row, fields from `src/lib/supabase.ts` (`TimeSlot`).
`slot_date` is a day index and `start_time`/`end_time` are minutes since
midnight: the source only ever compares these fields chronologically. -/
structure TimeSlot where
  id : String
  doctor_id : String
  slot_date : Nat
  start_time : Nat
  end_time : Nat
  duration_minutes : Nat
  is_available : Bool
  is_booked : Bool
deriving DecidableEq, Repr

/-- The `appointments` row as built by the booking page insert
(`src/app/[username]/page.tsx`, `onSubmit`): the store-generated id and
timestamps are omitted, `appointment_date`/`appointment_time` use the same
chronological embedding as `TimeSlot`. -/
structure AppointmentData where
  slot_id : String
  doctor_id : String
  patient_name : String
  patient_phone : String
  patient_email : Option String
  appointment_date : Nat
  appointment_time : Nat
  status : Status
  patient_notes : Option String
deriving DecidableEq, Repr

/- ### Slot generation (spec-modelled, claim C1) -/

/-- Modelled from the spec: the slot-expansion loop of the backend stored
procedure `generate_slots_from_schedules`, which is not part of this
repository's source (the source only invokes it via
`supabase.rpc('generate_slots_from_schedules', ...)`).  Following §4.1 of the
spec: emit slots `[t, t+interval)` for `t` stepping from the schedule's start
time to its end time in steps of `interval` minutes, dropping a final partial
slot that would exceed the end time.  `fuel` bounds the recursion; callers
pass a fuel that is large enough whenever `interval ≥ 1`. -/
def stepSlots : Nat → Nat → Nat → Nat → List (Nat × Nat)
  | 0, _, _, _ => []
  | fuel + 1, t, endT, interval =>
    if t + interval ≤ endT then
      (t, t + interval) :: stepSlots fuel (t + interval) endT interval
    else []

/-- Modelled from the spec: a `recurring_schedules` row as consumed by the
backend stored procedure.  `start_time`/`end_time` are minutes since midnight
(the spec's zero-padded HH:MM strings embed order-isomorphically into
minutes); `weekdays` is the set of integers 0-6 with Sunday = 0. -/
structure GenSchedule where
  name : String
  weekdays : List Nat
  start_time : Nat
  end_time : Nat
  interval_minutes : Nat
  is_active : Bool
deriving DecidableEq, Repr

/-- Modelled from the spec: the slots the generation procedure emits for one
schedule on one date, given that date's weekday.  Per §4.1 a schedule
contributes slots only when it is active and the date's weekday belongs to its
`weekdays` set. -/
def scheduleSlotsForDate (s : GenSchedule) (weekday : Nat) : List (Nat × Nat) :=
  if s.is_active = true ∧ weekday ∈ s.weekdays then
    stepSlots s.end_time s.start_time s.end_time s.interval_minutes
  else []

/- ### Availability query (claim C2) -/

/-- The filter of the public availability query in `fetchDoctorAndSlots`
(`src/app/[username]/page.tsx`): `doctor_id = X`, `is_available = true`,
`is_booked = false`, `slot_date ≥ today`, `slot_date ≤ today + 30 days`. -/
def bookablePred (docId : String) (today : Nat) (s : TimeSlot) : Bool :=
  s.doctor_id == docId && s.is_available && !s.is_booked &&
    decide (today ≤ s.slot_date) && decide (s.slot_date ≤ today + 30)

/-- The row order requested by the availability query:
`.order('slot_date', ascending).order('start_time', ascending)`. -/
def slotLE (a b : TimeSlot) : Prop :=
  a.slot_date < b.slot_date ∨
    (a.slot_date = b.slot_date ∧ a.start_time ≤ b.start_time)

instance : DecidableRel slotLE := fun _ _ =>
  inferInstanceAs (Decidable (_ ∨ _))

instance : IsTotal TimeSlot slotLE :=
  ⟨by intro a b; unfold slotLE; omega⟩

instance : IsTrans TimeSlot slotLE :=
  ⟨by intro a b c; unfold slotLE; omega⟩

/-- The public availability query of `fetchDoctorAndSlots`
(`src/app/[username]/page.tsx`): the store-side select with the bookable
filter, returned ordered by date then start time.  The store's order-by is
embedded as a sort of the filtered rows. -/
def fetchDoctorAndSlots (store : List TimeSlot) (docId : String) (today : Nat) :
    List TimeSlot :=
  List.insertionSort slotLE (store.filter (bookablePred docId today))

/- ### Booking claim (claims C3, C4, C7, C10) -/

/-- The booking form fields (`src/app/[username]/page.tsx`, `bookingSchema`).
An omitted optional field and an empty string are both falsy in the source's
JavaScript, so both are embedded as the empty string. -/
structure BookingForm where
  patient_name : String
  patient_phone : String
  patient_email : String
  patient_notes : String
deriving DecidableEq, Repr

/-- The `appointmentData` object built by `onSubmit`
(`src/app/[username]/page.tsx`): status is the literal `'confirmed'`, the
date/time are copied from the selected slot, and the optional fields are
mapped to null (`none`) by `|| null` when empty. -/
def mkAppointmentData (slot : TimeSlot) (docId : String) (f : BookingForm) :
    AppointmentData :=
  { slot_id := slot.id
    doctor_id := docId
    patient_name := f.patient_name
    patient_phone := f.patient_phone
    patient_email := if f.patient_email = "" then none else some f.patient_email
    appointment_date := slot.slot_date
    appointment_time := slot.start_time
    status := Status.confirmed
    patient_notes := if f.patient_notes = "" then none else some f.patient_notes }

/-- The store fragment the booking page touches: the `time_slots` and
`appointments` tables. -/
structure BookingStore where
  slots : List TimeSlot
  appointments : List AppointmentData
deriving DecidableEq, Repr

/-- The store-side `appointments` insert with the uniqueness constraint on the
slot reference (§3 of the spec): a second appointment for the same `slot_id`
is rejected with Postgres error code 23505, otherwise the row is appended. -/
def insertAppointment (l : List AppointmentData) (a : AppointmentData) :
    Except String (List AppointmentData) :=
  if l.any (fun b => b.slot_id == a.slot_id) then Except.error "23505"
  else Except.ok (l ++ [a])

/-- The message set by `onSubmit` when the insert fails with code 23505. -/
def slotUnavailableMsg : String :=
  "This time slot is no longer available. Please choose another time."

/-- The message set by `onSubmit` for any other insert error. -/
def bookingFailedMsg : String := "Failed to book appointment. Please try again."

/-- Error-message selection of `onSubmit` (`src/app/[username]/page.tsx`):
`if (appointmentError.code === '23505') ... else ...`. -/
def bookingErrorMessage (code : String) : String :=
  if code = "23505" then slotUnavailableMsg else bookingFailedMsg

/-- Outcome of a booking submission: the resulting store, the error banner
(empty when none), whether the confirmation view is shown (`setSuccess`), and
the field-level validation errors raised before any store call. -/
structure BookingResult where
  store : BookingStore
  error : String
  success : Bool
  fieldErrors : List String
deriving DecidableEq, Repr

/-- The body of `onSubmit` (`src/app/[username]/page.tsx`): build
`appointmentData`, insert it into `appointments`, on error show a message and
no confirmation, on success show the confirmation view.  No update of the
`time_slots` table occurs anywhere in this flow. -/
def onSubmit (st : BookingStore) (slot : TimeSlot) (docId : String)
    (f : BookingForm) : BookingResult :=
  match insertAppointment st.appointments (mkAppointmentData slot docId f) with
  | Except.error code =>
      { store := st, error := bookingErrorMessage code, success := false
        fieldErrors := [] }
  | Except.ok l =>
      { store := { st with appointments := l }, error := "", success := true
        fieldErrors := [] }

/-- The `bookingSchema` checks (`src/app/[username]/page.tsx`): name at least
2 characters, phone at least 10, email valid or empty, notes at most 500
characters.  The email format test itself is performed by the external zod
library, so it is a parameter `emailValid`. -/
def bookingSchemaCheck (emailValid : String → Bool) (f : BookingForm) : Bool :=
  decide (2 ≤ f.patient_name.length) && decide (10 ≤ f.patient_phone.length) &&
    (f.patient_email == "" || emailValid f.patient_email) &&
    decide (f.patient_notes.length ≤ 500)

/-- The per-field validation messages zod attaches on a failed parse, one
entry per violated rule of `bookingSchema`. -/
def bookingFieldErrors (emailValid : String → Bool) (f : BookingForm) :
    List String :=
  (if f.patient_name.length < 2 then ["Name must be at least 2 characters"] else []) ++
    (if f.patient_phone.length < 10 then ["Please enter a valid phone number"] else []) ++
    (if !(f.patient_email == "" || emailValid f.patient_email) then
      ["Please enter a valid email"] else []) ++
    (if 500 < f.patient_notes.length then ["Notes must be less than 500 characters"] else [])

/-- The booking submission pipeline: `react-hook-form`'s
`handleSubmit(onSubmit)` runs the zod resolver first and invokes `onSubmit`
only when the schema passes; otherwise it reports the field errors and makes
no store call. -/
def submitBookingForm (emailValid : String → Bool) (st : BookingStore)
    (slot : TimeSlot) (docId : String) (f : BookingForm) : BookingResult :=
  if bookingSchemaCheck emailValid f then onSubmit st slot docId f
  else
    { store := st, error := "", success := false
      fieldErrors := bookingFieldErrors emailValid f }

/- ### Appointment status transitions (claim C5) -/

/-- An appointment row as fetched by the appointments page
(`src/app/appointments/page.tsx`, interface `AppointmentWithSlot`); only the
fields read by the modelled operations are kept. -/
structure AppointmentWithSlot where
  id : String
  status : Status
deriving DecidableEq, Repr

/-- The transition buttons the appointments page renders for one appointment
(`src/app/appointments/page.tsx`): the block is guarded by
`appointment.status === 'confirmed'` and offers exactly 'Mark Completed',
'No Show' and 'Cancel'. -/
def transitionTargets (a : AppointmentWithSlot) : List Status :=
  if a.status = Status.confirmed then
    [Status.completed, Status.no_show, Status.cancelled]
  else []

/-- The store update performed by `updateAppointmentStatus`
(`src/app/appointments/page.tsx`): set `status` on the row with the given id
(the function itself imposes no guard). -/
def updateAppointmentStatus (l : List AppointmentWithSlot) (i : String)
    (newStatus : Status) : List AppointmentWithSlot :=
  l.map (fun a => if a.id == i then { a with status := newStatus } else a)

/-- One interaction with the exposed interface: clicking a transition button
of the appointment with id `i`.  The click is only possible when the page
renders that button, i.e. when `tgt` is among `transitionTargets` of that
row; it then runs `updateAppointmentStatus`. -/
def exposedStep (l : List AppointmentWithSlot) (i : String) (tgt : Status) :
    Option (List AppointmentWithSlot) :=
  match l.find? (fun a => a.id == i) with
  | none => none
  | some a =>
      if tgt ∈ transitionTargets a then some (updateAppointmentStatus l i tgt)
      else none

/- ### Recurring-schedule creation (claim C6) -/

/-- The schedule form fields (`src/app/accounts/page.tsx`, schedules variant,
`scheduleSchema`). -/
structure ScheduleForm where
  name : String
  start_time : String
  end_time : String
  interval_minutes : Nat
deriving DecidableEq, Repr

/-- The `recurring_schedules` row inserted by `onScheduleSubmit`. -/
structure ScheduleRow where
  doctor_id : String
  name : String
  weekdays : List Nat
  start_time : String
  end_time : String
  interval_minutes : Nat
  is_active : Bool
deriving DecidableEq, Repr

/-- The `scheduleSchema` checks (`src/app/accounts/page.tsx`, schedules
variant): name, start time and end time non-empty, interval between 5 and
30. -/
def scheduleSchemaCheck (f : ScheduleForm) : Bool :=
  decide (1 ≤ f.name.length) && decide (1 ≤ f.start_time.length) &&
    decide (1 ≤ f.end_time.length) && decide (5 ≤ f.interval_minutes) &&
    decide (f.interval_minutes ≤ 30)

/-- The body of `onScheduleSubmit` guarded by its zod resolver: the resolver
rejects inputs failing `scheduleSchema` before the handler runs; the handler
then rejects an empty weekday selection and `start_time >= end_time`
(JavaScript string comparison) before the insert, and otherwise inserts the
row with `is_active: true`.  Returns the updated table and the error message,
`none` on success. -/
def onScheduleSubmit (store : List ScheduleRow) (docId : String)
    (f : ScheduleForm) (selectedWeekdays : List Nat) :
    List ScheduleRow × Option String :=
  if scheduleSchemaCheck f = false then (store, some "validation error")
  else if selectedWeekdays.isEmpty then (store, some "Please select at least one day")
  else if jsStrLt f.start_time.data f.end_time.data = false then
    (store, some "End time must be after start time")
  else
    (store ++ [{ doctor_id := docId, name := f.name
                 weekdays := selectedWeekdays, start_time := f.start_time
                 end_time := f.end_time, interval_minutes := f.interval_minutes
                 is_active := true }], none)

/- ### Slot deletion (claim C8) -/

/-- The `deleteSlot` handler (`src/app/accounts/page.tsx`, both variants):
`supabase.from('time_slots').delete().eq('id', slotId)` — remove the rows of
the `time_slots` table whose id matches, touching no other table.  Neither
variant consults `is_booked` or the `appointments` table. -/
def deleteSlot (slots : List TimeSlot) (appointments : List AppointmentData)
    (slotId : String) : List TimeSlot × List AppointmentData :=
  (slots.filter (fun s => !(s.id == slotId)), appointments)

/- ### Auth-callback practitioner reconciliation (claim C9) -/

/-- The authenticated principal as seen by the callback route
(`src/app/auth/callback/route.ts`): id, optional email, optional sign-up
metadata username. -/
structure AuthUser where
  id : String
  email : Option String
  metaUsername : Option String
deriving DecidableEq, Repr

/-- The `.toLowerCase().replace(/[^a-z0-9]/g, '-')` sanitisation applied to
the email's local part in the callback route. -/
def sanitizeUsername (s : String) : String :=
  String.mk (s.data.map (fun c =>
    let lower := c.toLower
    if ('a' ≤ lower ∧ lower ≤ 'z') ∨ ('0' ≤ lower ∧ lower ≤ '9') then lower
    else '-'))

/-- The default-username chain of the callback route:
`user.user_metadata?.username || user.email?.split('@')[0].toLowerCase()
.replace(/[^a-z0-9]/g, '-') || user-<first 8 chars of id>`.  A missing field
and an empty string are both falsy in JavaScript. -/
def deriveUsername (u : AuthUser) : String :=
  let fromMeta := u.metaUsername.getD ""
  if fromMeta ≠ "" then fromMeta
  else
    let fromEmail :=
      match u.email with
      | none => ""
      | some e => sanitizeUsername (String.mk (e.data.takeWhile (fun c => c ≠ '@')))
    if fromEmail ≠ "" then fromEmail
    else "user-" ++ String.mk (u.id.data.take 8)

/-- The default `doctors` row the callback route inserts for a principal with
no row (`src/app/auth/callback/route.ts`). -/
def defaultDoctor (u : AuthUser) : Doctor :=
  { id := u.id, email := u.email.getD "", username := deriveUsername u
    tier := Tier.free, profile_completed := false }

/-- The reconciliation step of the callback route's `GET`: look up the
`doctors` row by the principal's id; if the single-row lookup reports no row
(code PGRST116), insert `defaultDoctor`; otherwise leave the table unchanged.
Returns the updated table and whether a row was created. -/
def callbackReconcile (store : List Doctor) (u : AuthUser) :
    List Doctor × Bool :=
  match store.find? (fun d => d.id == u.id) with
  | some _ => (store, false)
  | none => (store ++ [defaultDoctor u], true)

/- ### Concrete sample data used to instantiate the theorems -/

/-- The end-to-end scenario schedule of §8 of the spec: weekdays Mon/Wed/Fri,
09:00-10:00 (minutes 540-600), 20-minute interval. -/
def demoSchedule : GenSchedule :=
  { name := "mwf", weekdays := [1, 3, 5], start_time := 540, end_time := 600
    interval_minutes := 20, is_active := true }

/-- A bookable slot of doctor d1 on day 12. -/
def demoSlotA : TimeSlot :=
  { id := "sA", doctor_id := "d1", slot_date := 12, start_time := 540
    end_time := 560, duration_minutes := 20, is_available := true
    is_booked := false }

/-- A bookable slot of doctor d1 on day 11, earlier than `demoSlotA`. -/
def demoSlotB : TimeSlot :=
  { id := "sB", doctor_id := "d1", slot_date := 11, start_time := 600
    end_time := 620, duration_minutes := 20, is_available := true
    is_booked := false }

/-- A booked slot of doctor d1 on day 11. -/
def demoSlotBooked : TimeSlot :=
  { id := "sC", doctor_id := "d1", slot_date := 11, start_time := 540
    end_time := 560, duration_minutes := 20, is_available := true
    is_booked := true }

/-- A sample `time_slots` table. -/
def demoSlotStore : List TimeSlot := [demoSlotA, demoSlotBooked, demoSlotB]

/-- A valid booking form. -/
def demoForm : BookingForm :=
  { patient_name := "Alice Doe", patient_phone := "0123456789"
    patient_email := "", patient_notes := "" }

/-- A booking form violating the name rule (one character). -/
def demoBadForm : BookingForm :=
  { patient_name := "A", patient_phone := "0123456789"
    patient_email := "", patient_notes := "" }

/-- The appointment another patient already inserted for `demoSlotA`. -/
def demoAppointment : AppointmentData := mkAppointmentData demoSlotA "d1" demoForm

/-- A booking store in which `demoSlotA` is already claimed. -/
def demoBookingStore : BookingStore :=
  { slots := demoSlotStore, appointments := [demoAppointment] }

/-- A booking store with no appointment yet. -/
def demoEmptyStore : BookingStore := { slots := demoSlotStore, appointments := [] }

/-- The appointment that claimed `demoSlotBooked`. -/
def demoBookedAppointment : AppointmentData :=
  mkAppointmentData demoSlotBooked "d1" demoForm

/-- A confirmed appointment row on the appointments page. -/
def demoConfirmed : AppointmentWithSlot := { id := "a1", status := Status.confirmed }

/-- A completed (terminal) appointment row on the appointments page. -/
def demoCompleted : AppointmentWithSlot := { id := "a2", status := Status.completed }

/-- A schedule form with a valid time range. -/
def demoScheduleForm : ScheduleForm :=
  { name := "morning", start_time := "09:00", end_time := "10:00"
    interval_minutes := 20 }

/-- A schedule form whose start time is not before its end time. -/
def demoBadScheduleForm : ScheduleForm :=
  { name := "morning", start_time := "10:00", end_time := "09:30"
    interval_minutes := 20 }

/-- A principal with no metadata username and no email. -/
def demoUser : AuthUser :=
  { id := "0123456789abcdef", email := none, metaUsername := none }

/-- A doctors row for a different principal. -/
def demoOtherDoctor : Doctor :=
  { id := "zz", email := "z@z", username := "zz", tier := Tier.free
    profile_completed := true }

/- ### Lemmas about the slot-generation stepping loop -/

theorem stepSlots_length (interval : Nat) (h1 : 1 ≤ interval) :
    ∀ (fuel t endT : Nat), (endT - t) / interval ≤ fuel →
      (stepSlots fuel t endT interval).length = (endT - t) / interval := by
  intro fuel
  induction fuel with
  | zero =>
    intro t endT h
    simp only [stepSlots, List.length_nil]
    exact (Nat.le_zero.mp h).symm
  | succ n ih =>
    intro t endT h
    simp only [stepSlots]
    by_cases hle : t + interval ≤ endT
    · rw [if_pos hle, List.length_cons]
      have hdiv : (endT - t) / interval = (endT - (t + interval)) / interval + 1 := by
        have h2 : interval ≤ endT - t := by omega
        have hsub : endT - t - interval = endT - (t + interval) := by omega
        rw [Nat.div_eq_sub_div (by omega) h2, hsub]
      rw [ih (t + interval) endT (by rw [hdiv] at h; exact Nat.le_of_succ_le_succ h)]
      rw [hdiv]
    · rw [if_neg hle, List.length_nil]
      rw [Nat.div_eq_of_lt (by omega)]

theorem stepSlots_mem :
    ∀ (fuel t endT interval : Nat) (p : Nat × Nat),
      p ∈ stepSlots fuel t endT interval → p.2 = p.1 + interval ∧ p.2 ≤ endT := by
  intro fuel
  induction fuel with
  | zero =>
    intro t endT interval p hp
    simp [stepSlots] at hp
  | succ n ih =>
    intro t endT interval p hp
    simp only [stepSlots] at hp
    by_cases hle : t + interval ≤ endT
    · rw [if_pos hle] at hp
      rcases List.mem_cons.mp hp with hp | hp
      · subst hp
        exact ⟨rfl, hle⟩
      · exact ih (t + interval) endT interval p hp
    · rw [if_neg hle] at hp
      simp at hp

/-- C1: for every recurring schedule with `start_time < end_time` and
`interval_minutes` in {5, 10, 15, 20, 25, 30}, slot generation over a date
whose weekday is in the schedule's weekday set produces exactly
`(end_time - start_time) / interval_minutes` slots (floor division), each
slot exactly `interval_minutes` long, and no emitted slot ends after
`end_time`. -/
theorem c1_slot_generation (s : GenSchedule) (weekday : Nat)
    (hact : s.is_active = true) (hwd : weekday ∈ s.weekdays)
    (_hlt : s.start_time < s.end_time)
    (hint : s.interval_minutes ∈ [5, 10, 15, 20, 25, 30]) :
    (scheduleSlotsForDate s weekday).length
        = (s.end_time - s.start_time) / s.interval_minutes
      ∧ ∀ p ∈ scheduleSlotsForDate s weekday,
          p.2 - p.1 = s.interval_minutes ∧ p.2 ≤ s.end_time := by
  have h1 : 1 ≤ s.interval_minutes := by
    simp only [List.mem_cons, List.not_mem_nil, or_false] at hint
    omega
  have hgen : scheduleSlotsForDate s weekday
      = stepSlots s.end_time s.start_time s.end_time s.interval_minutes := by
    rw [scheduleSlotsForDate, if_pos ⟨hact, hwd⟩]
  constructor
  · rw [hgen]
    exact stepSlots_length s.interval_minutes h1 s.end_time s.start_time s.end_time
      (Nat.le_trans (Nat.div_le_self _ _) (Nat.sub_le _ _))
  · intro p hp
    rw [hgen] at hp
    obtain ⟨ha, hb⟩ :=
      stepSlots_mem s.end_time s.start_time s.end_time s.interval_minutes p hp
    exact ⟨by omega, hb⟩

/-- Witness for C1 at the spec's §8 scenario schedule (09:00-10:00, interval
20, weekdays Mon/Wed/Fri) generated over a Wednesday. -/
theorem c1_slot_generation_witness :
    (scheduleSlotsForDate demoSchedule 3).length = (600 - 540) / 20
      ∧ ∀ p ∈ scheduleSlotsForDate demoSchedule 3,
          p.2 - p.1 = 20 ∧ p.2 ≤ 600 :=
  c1_slot_generation demoSchedule 3 (by decide) (by decide) (by decide) (by decide)

/-- C2: the public availability query returns exactly the stored slots
satisfying `doctor_id = X ∧ is_available ∧ ¬is_booked ∧ today ≤ slot_date ≤
today + 30` (as a permutation of the filtered table), ordered ascending by
date and then by start time, and a slot with `is_booked = true` is never
returned. -/
theorem c2_availability_query (store : List TimeSlot) (docId : String)
    (today : Nat) :
    (fetchDoctorAndSlots store docId today).Perm
        (store.filter (bookablePred docId today))
      ∧ List.Sorted slotLE (fetchDoctorAndSlots store docId today)
      ∧ ∀ t ∈ fetchDoctorAndSlots store docId today, t.is_booked = false := by
  refine ⟨List.perm_insertionSort slotLE _, List.sorted_insertionSort slotLE _, ?_⟩
  intro t ht
  have ht2 : t ∈ store.filter (bookablePred docId today) :=
    (List.perm_insertionSort slotLE _).mem_iff.mp ht
  have hpred := List.of_mem_filter ht2
  simp only [bookablePred, Bool.and_eq_true, Bool.not_eq_true',
    decide_eq_true_eq] at hpred
  exact hpred.1.1.2

/-- Witness for C2: on the sample table, the booked slot of the same doctor
inside the window is not returned. -/
theorem c2_availability_query_witness :
    demoSlotBooked ∉ fetchDoctorAndSlots demoSlotStore "d1" 10 := fun h =>
  absurd ((c2_availability_query demoSlotStore "d1" 10).2.2 demoSlotBooked h)
    (by decide)

/- ### Lemmas about the booking submission -/

theorem onSubmit_slots_eq (st : BookingStore) (slot : TimeSlot) (docId : String)
    (f : BookingForm) : (onSubmit st slot docId f).store.slots = st.slots := by
  unfold onSubmit
  cases insertAppointment st.appointments (mkAppointmentData slot docId f) with
  | error code => rfl
  | ok l => rfl

theorem onSubmit_success_appointments (st : BookingStore) (slot : TimeSlot)
    (docId : String) (f : BookingForm)
    (hs : (onSubmit st slot docId f).success = true) :
    (onSubmit st slot docId f).store.appointments
      = st.appointments ++ [mkAppointmentData slot docId f] := by
  unfold onSubmit at hs ⊢
  cases hins : insertAppointment st.appointments (mkAppointmentData slot docId f) with
  | error code =>
      rw [hins] at hs
      exact Bool.noConfusion hs
  | ok l =>
      unfold insertAppointment at hins
      split at hins
      · exact Except.noConfusion hins
      · injection hins with h
        exact h.symm

/-- C3: when the appointment insert is rejected by the uniqueness constraint
on the slot reference (error code 23505: the slot is already claimed), the
booking flow reports the specific slot-no-longer-available message, which is
distinct from the generic failure message used for every other insert error,
and the confirmation view is not shown. -/
theorem c3_conflict_message (st : BookingStore) (slot : TimeSlot)
    (docId : String) (f : BookingForm)
    (hdup : st.appointments.any (fun b => b.slot_id == slot.id) = true) :
    (onSubmit st slot docId f).error = slotUnavailableMsg
      ∧ (onSubmit st slot docId f).success = false
      ∧ slotUnavailableMsg ≠ bookingFailedMsg
      ∧ ∀ code, code ≠ "23505" → bookingErrorMessage code = bookingFailedMsg := by
  have hdup2 : (st.appointments.any
      (fun b => b.slot_id == (mkAppointmentData slot docId f).slot_id)) = true := hdup
  have hins : insertAppointment st.appointments (mkAppointmentData slot docId f)
      = Except.error "23505" := by
    unfold insertAppointment
    rw [if_pos hdup2]
  unfold onSubmit
  rw [hins]
  refine ⟨rfl, rfl, by decide, ?_⟩
  intro code hc
  unfold bookingErrorMessage
  rw [if_neg hc]

/-- Witness for C3: with the sample store in which `demoSlotA` is already
claimed, a second booking for `demoSlotA` gets the specific conflict message,
no confirmation view, and an unrelated error code still maps to the generic
message. -/
theorem c3_conflict_message_witness :
    (onSubmit demoBookingStore demoSlotA "d1" demoForm).error = slotUnavailableMsg
      ∧ (onSubmit demoBookingStore demoSlotA "d1" demoForm).success = false
      ∧ bookingErrorMessage "40001" = bookingFailedMsg :=
  let h := c3_conflict_message demoBookingStore demoSlotA "d1" demoForm (by decide)
  ⟨h.1, h.2.1, h.2.2.2 "40001" (by decide)⟩

/-- C4: the booking claim never writes to the `time_slots` table — in
particular `is_booked` is not flipped — and a successful claim appends
exactly one appointment row. -/
theorem c4_booking_frame (st : BookingStore) (slot : TimeSlot) (docId : String)
    (f : BookingForm) :
    (onSubmit st slot docId f).store.slots = st.slots
      ∧ ((onSubmit st slot docId f).success = true →
          (onSubmit st slot docId f).store.appointments
            = st.appointments ++ [mkAppointmentData slot docId f]) :=
  ⟨onSubmit_slots_eq st slot docId f,
    onSubmit_success_appointments st slot docId f⟩

/-- Witness for C4: a successful booking on the sample store leaves the
`time_slots` table unchanged and appends one appointment row. -/
theorem c4_booking_frame_witness :
    (onSubmit demoEmptyStore demoSlotA "d1" demoForm).store.slots
        = demoEmptyStore.slots
      ∧ (onSubmit demoEmptyStore demoSlotA "d1" demoForm).store.appointments
        = demoEmptyStore.appointments ++ [mkAppointmentData demoSlotA "d1" demoForm] :=
  let h := c4_booking_frame demoEmptyStore demoSlotA "d1" demoForm
  ⟨h.1, h.2 (by decide)⟩

/-- C10: every appointment row created by the booking flow is inserted with
status `confirmed`, `appointment_date` equal to the selected slot's date,
`appointment_time` equal to the slot's start time, and null e-mail/notes when
the corresponding form field is empty. -/
theorem c10_appointment_row_fields (st : BookingStore) (slot : TimeSlot)
    (docId : String) (f : BookingForm)
    (hs : (onSubmit st slot docId f).success = true) :
    ∃ row : AppointmentData,
      (onSubmit st slot docId f).store.appointments = st.appointments ++ [row]
        ∧ row.status = Status.confirmed
        ∧ row.appointment_date = slot.slot_date
        ∧ row.appointment_time = slot.start_time
        ∧ row.patient_email
            = (if f.patient_email = "" then none else some f.patient_email)
        ∧ row.patient_notes
            = (if f.patient_notes = "" then none else some f.patient_notes) :=
  ⟨mkAppointmentData slot docId f,
    onSubmit_success_appointments st slot docId f hs, rfl, rfl, rfl, rfl, rfl⟩

/-- Witness for C10 at a successful booking on the sample store. -/
theorem c10_appointment_row_fields_witness :
    ∃ row : AppointmentData,
      (onSubmit demoEmptyStore demoSlotA "d1" demoForm).store.appointments
          = demoEmptyStore.appointments ++ [row]
        ∧ row.status = Status.confirmed
        ∧ row.appointment_date = demoSlotA.slot_date
        ∧ row.appointment_time = demoSlotA.start_time
        ∧ row.patient_email
            = (if demoForm.patient_email = "" then none else some demoForm.patient_email)
        ∧ row.patient_notes
            = (if demoForm.patient_notes = "" then none else some demoForm.patient_notes) :=
  c10_appointment_row_fields demoEmptyStore demoSlotA "d1" demoForm (by decide)

/- ### Lemmas about the appointment status interface -/

theorem transitionTargets_mem (a : AppointmentWithSlot) (tgt : Status) :
    tgt ∈ transitionTargets a ↔
      a.status = Status.confirmed ∧
        (tgt = Status.completed ∨ tgt = Status.no_show ∨ tgt = Status.cancelled) := by
  unfold transitionTargets
  by_cases h : a.status = Status.confirmed
  · rw [if_pos h]
    simp [h]
  · rw [if_neg h]
    simp [h]

/-- C5: through the exposed appointment-management interface, a status
transition is offered only for an appointment whose current status is
`confirmed`, the only reachable targets are `completed`, `no_show` and
`cancelled`, and hence no transition out of a terminal state is reachable
through the exposed interface. -/
theorem c5_status_transitions :
    (∀ (a : AppointmentWithSlot) (tgt : Status),
        tgt ∈ transitionTargets a ↔
          a.status = Status.confirmed ∧
            (tgt = Status.completed ∨ tgt = Status.no_show ∨ tgt = Status.cancelled))
      ∧ ∀ (l : List AppointmentWithSlot) (i : String) (tgt : Status)
          (l2 : List AppointmentWithSlot),
          exposedStep l i tgt = some l2 →
            (∀ a, l.find? (fun b => b.id == i) = some a →
                a.status = Status.confirmed ∧
                  (tgt = Status.completed ∨ tgt = Status.no_show ∨ tgt = Status.cancelled))
              ∧ l2 = updateAppointmentStatus l i tgt := by
  refine ⟨transitionTargets_mem, ?_⟩
  intro l i tgt l2 hstep
  unfold exposedStep at hstep
  cases hfind : l.find? (fun b => b.id == i) with
  | none => rw [hfind] at hstep; exact Option.noConfusion hstep
  | some a =>
      rw [hfind] at hstep
      have hstep2 : (if tgt ∈ transitionTargets a
          then some (updateAppointmentStatus l i tgt) else none) = some l2 := hstep
      by_cases hmem : tgt ∈ transitionTargets a
      · rw [if_pos hmem] at hstep2
        injection hstep2 with h2
        refine ⟨?_, h2.symm⟩
        intro a2 ha2
        injection ha2 with ha2
        rw [← ha2]
        exact (transitionTargets_mem a tgt).mp hmem
      · rw [if_neg hmem] at hstep2
        exact Option.noConfusion hstep2

/-- Witness for C5: on a two-row table with one confirmed and one completed
appointment, the step offered on the confirmed row certifies its source
status and target set. -/
theorem c5_status_transitions_witness :
    demoConfirmed.status = Status.confirmed
      ∧ (Status.completed = Status.completed ∨ Status.completed = Status.no_show
          ∨ Status.completed = Status.cancelled) :=
  ((c5_status_transitions.2 [demoConfirmed, demoCompleted] "a1" Status.completed
      (updateAppointmentStatus [demoConfirmed, demoCompleted] "a1" Status.completed)
      (by decide)).1 demoConfirmed (by decide))

/-- C6: every recurring schedule accepted for insertion satisfies
`start_time < end_time` (lexicographically on the HH:MM strings) and a
non-empty weekday set, with `interval_minutes` between 5 and 30; a violating
input is rejected with an error before any insert and the table is unchanged
on rejection. -/
theorem c6_schedule_invariant (store : List ScheduleRow) (docId : String)
    (f : ScheduleForm) (wd : List Nat) :
    ((onScheduleSubmit store docId f wd).2 = none →
        jsStrLt f.start_time.data f.end_time.data = true
          ∧ wd ≠ []
          ∧ 5 ≤ f.interval_minutes ∧ f.interval_minutes ≤ 30
          ∧ (onScheduleSubmit store docId f wd).1
              = store ++ [{ doctor_id := docId, name := f.name, weekdays := wd
                            start_time := f.start_time, end_time := f.end_time
                            interval_minutes := f.interval_minutes
                            is_active := true }])
      ∧ ((onScheduleSubmit store docId f wd).2 ≠ none →
          (onScheduleSubmit store docId f wd).1 = store) := by
  by_cases h1 : scheduleSchemaCheck f = false
  · unfold onScheduleSubmit
    rw [if_pos h1]
    exact ⟨fun h => Option.noConfusion h, fun _ => rfl⟩
  · by_cases h2 : wd.isEmpty = true
    · unfold onScheduleSubmit
      rw [if_neg h1, if_pos h2]
      exact ⟨fun h => Option.noConfusion h, fun _ => rfl⟩
    · by_cases h3 : jsStrLt f.start_time.data f.end_time.data = false
      · unfold onScheduleSubmit
        rw [if_neg h1, if_neg h2, if_pos h3]
        exact ⟨fun h => Option.noConfusion h, fun _ => rfl⟩
      · unfold onScheduleSubmit
        rw [if_neg h1, if_neg h2, if_neg h3]
        have hcheck : scheduleSchemaCheck f = true := by
          cases hc : scheduleSchemaCheck f
          · exact absurd hc h1
          · rfl
        have hint : 5 ≤ f.interval_minutes ∧ f.interval_minutes ≤ 30 := by
          simp only [scheduleSchemaCheck, Bool.and_eq_true, decide_eq_true_eq]
            at hcheck
          exact ⟨hcheck.1.2, hcheck.2⟩
        have hjs : jsStrLt f.start_time.data f.end_time.data = true := by
          cases hc : jsStrLt f.start_time.data f.end_time.data
          · exact absurd hc h3
          · rfl
        refine ⟨fun _ => ⟨hjs, ?_, hint.1, hint.2, rfl⟩, fun hne => absurd rfl hne⟩
        intro hnil
        rw [hnil] at h2
        exact h2 rfl

/-- Witness for C6: the valid 09:00-10:00 form is inserted and its time
range is lexicographically ordered; the reversed 10:00-09:30 form leaves the
table unchanged. -/
theorem c6_schedule_invariant_witness :
    jsStrLt demoScheduleForm.start_time.data demoScheduleForm.end_time.data = true
      ∧ (onScheduleSubmit [] "d1" demoScheduleForm [1, 3]).1
          = [] ++ [{ doctor_id := "d1", name := demoScheduleForm.name
                     weekdays := [1, 3], start_time := demoScheduleForm.start_time
                     end_time := demoScheduleForm.end_time
                     interval_minutes := demoScheduleForm.interval_minutes
                     is_active := true }]
      ∧ (onScheduleSubmit [] "d1" demoBadScheduleForm [1, 3]).1 = [] :=
  let h := (c6_schedule_invariant [] "d1" demoScheduleForm [1, 3]).1 (by decide)
  ⟨h.1, h.2.2.2.2,
    (c6_schedule_invariant [] "d1" demoBadScheduleForm [1, 3]).2 (by decide)⟩

/- ### Lemmas about booking-form validation -/

theorem bookingSchemaCheck_false_errors (emailValid : String → Bool)
    (f : BookingForm) (h : bookingSchemaCheck emailValid f = false) :
    bookingFieldErrors emailValid f ≠ [] := by
  by_cases h1 : f.patient_name.length < 2
  · simp [bookingFieldErrors, h1]
  · by_cases h2 : f.patient_phone.length < 10
    · simp [bookingFieldErrors, h2]
    · by_cases h3 : (f.patient_email == "" || emailValid f.patient_email) = true
      · by_cases h4 : 500 < f.patient_notes.length
        · simp [bookingFieldErrors, h4]
        · exfalso
          have hc : bookingSchemaCheck emailValid f = true := by
            simp only [bookingSchemaCheck, Bool.and_eq_true, decide_eq_true_eq]
            exact ⟨⟨⟨by omega, by omega⟩, h3⟩, by omega⟩
          rw [hc] at h
          exact Bool.noConfusion h
      · have h3f : (f.patient_email == "" || emailValid f.patient_email) = false := by
          cases hc : (f.patient_email == "" || emailValid f.patient_email)
          · rfl
          · exact absurd hc h3
        simp [bookingFieldErrors, h3f]

/-- C7: a booking-form input violating any validation rule (name at least 2
characters, phone at least 10, email valid or empty, notes at most 500
characters) is rejected with a field-level error, no appointment insert is
attempted and the store is unchanged. -/
theorem c7_booking_validation (emailValid : String → Bool) (st : BookingStore)
    (slot : TimeSlot) (docId : String) (f : BookingForm)
    (h : bookingSchemaCheck emailValid f = false) :
    (submitBookingForm emailValid st slot docId f).store = st
      ∧ (submitBookingForm emailValid st slot docId f).success = false
      ∧ (submitBookingForm emailValid st slot docId f).fieldErrors ≠ [] := by
  have hne : ¬(bookingSchemaCheck emailValid f = true) := by
    intro hc
    rw [h] at hc
    exact Bool.noConfusion hc
  unfold submitBookingForm
  rw [if_neg hne]
  exact ⟨rfl, rfl, bookingSchemaCheck_false_errors emailValid f h⟩

/-- Witness for C7: a one-character patient name is rejected with a field
error and the sample store is untouched. -/
theorem c7_booking_validation_witness :
    (submitBookingForm (fun _ => false) demoEmptyStore demoSlotA "d1" demoBadForm).store
        = demoEmptyStore
      ∧ (submitBookingForm (fun _ => false) demoEmptyStore demoSlotA "d1" demoBadForm).success
        = false
      ∧ (submitBookingForm (fun _ => false) demoEmptyStore demoSlotA "d1" demoBadForm).fieldErrors
        ≠ [] :=
  c7_booking_validation (fun _ => false) demoEmptyStore demoSlotA "d1" demoBadForm
    (by decide)

/-- C8 (refutation of the slot-deletion contract by the code): `deleteSlot`
on the booked sample slot removes the slot from `time_slots` while leaving
its appointment in `appointments` untouched — the handler neither prevents
the deletion of a booked slot nor cascade-invalidates its appointment,
contradicting the contract in §3 of the spec and the changelog entry
claiming slot deletion with booking protection (`src/lib/version.ts`,
1.0.2-beta). -/
theorem c8_delete_booked_slot :
    demoSlotBooked.is_booked = true
      ∧ deleteSlot [demoSlotBooked] [demoBookedAppointment] "sC"
          = ([], [demoBookedAppointment]) := by
  decide

/-- C9: when the authenticated principal has no `doctors` row, the callback
creates exactly one row with the derived default username, tier `free` and
`profile_completed = false`; when a row exists, no row is created. -/
theorem c9_first_access_creates_doctor (store : List Doctor) (u : AuthUser) :
    ((store.find? (fun d => d.id == u.id) = none) →
        (callbackReconcile store u).1 = store ++ [defaultDoctor u]
          ∧ (callbackReconcile store u).2 = true
          ∧ (defaultDoctor u).tier = Tier.free
          ∧ (defaultDoctor u).profile_completed = false
          ∧ (defaultDoctor u).username = deriveUsername u
          ∧ ((callbackReconcile store u).1.countP (fun d => d.id == u.id))
              = store.countP (fun d => d.id == u.id) + 1)
      ∧ (∀ d, store.find? (fun d2 => d2.id == u.id) = some d →
          (callbackReconcile store u).1 = store
            ∧ (callbackReconcile store u).2 = false) := by
  constructor
  · intro hnone
    unfold callbackReconcile
    rw [hnone]
    refine ⟨rfl, rfl, rfl, rfl, rfl, ?_⟩
    show (store ++ [defaultDoctor u]).countP (fun d => d.id == u.id)
        = store.countP (fun d => d.id == u.id) + 1
    rw [List.countP_append]
    simp [defaultDoctor]
  · intro d hd
    unfold callbackReconcile
    rw [hd]
    exact ⟨rfl, rfl⟩

/-- Witness for C9: with a store holding only an unrelated doctor row,
`demoUser`'s first access appends the default row and makes the count of
rows with that principal's id equal to one more than before. -/
theorem c9_first_access_creates_doctor_witness :
    (callbackReconcile [demoOtherDoctor] demoUser).1
        = [demoOtherDoctor] ++ [defaultDoctor demoUser]
      ∧ (defaultDoctor demoUser).tier = Tier.free
      ∧ (defaultDoctor demoUser).profile_completed = false
      ∧ ((callbackReconcile [demoOtherDoctor] demoUser).1.countP
            (fun d => d.id == demoUser.id))
        = ([demoOtherDoctor].countP (fun d => d.id == demoUser.id)) + 1 :=
  let h := (c9_first_access_creates_doctor [demoOtherDoctor] demoUser).1 (by decide)
  ⟨h.1, h.2.2.1, h.2.2.2.1, h.2.2.2.2.2⟩

end DocAppint
